import Mathlib

/-!
Shallow embedding of the smart-pointer library (shared.h and unique.h).

The heap is modelled explicitly: control blocks live in an association list
keyed by an id, payload allocations (ints, sufficient for every claim) live in
an association list keyed by an address, and every destruction-related action
(payload delete or in-place destroy, OnZeroStrong firing, OnZeroWeak firing)
is appended to a chronological event log.  A SharedPtr handle is the pair of
its two fields: cb_ (an optional control-block id, none = null pointer) and
ptr_ (an optional payload address, none = null pointer).  Operations that
dereference a null cb_ in the source are embedded as functions into an
Outcome type whose nullDeref constructor marks the crash.
-/

/-- Destruction-related actions recorded in chronological order: a delete or
in-place destroy of a payload address, an OnZeroStrong firing, an OnZeroWeak
firing (each tagged with the control-block id). -/
inductive Event where
  | payloadDelete : Nat → Event
  | zeroStrong : Nat → Event
  | zeroWeak : Nat → Event
deriving DecidableEq

/-- Variant of a control block: ControlBlockPtr holds an owned raw pointer
(possibly null); ControlBlockMakeShared holds in-place storage whose payload
lives at the recorded address. -/
inductive CBKind where
  | ptrBlock : Option Nat → CBKind
  | msBlock : Nat → CBKind
deriving DecidableEq

/-- ControlBlockBase fields: the strong and weak counters (C++ int, embedded
as Int) together with the variant data. -/
structure CB where
  strong : Int
  weak : Int
  kind : CBKind
deriving DecidableEq

/-- Lookup of a control block by id in an association list. -/
def findCB (l : List (Nat × CB)) (c : Nat) : Option CB :=
  match l with
  | [] => none
  | (k, v) :: rest => if k = c then some v else findCB rest c

/-- Replace the entry for the given id, leaving other entries unchanged. -/
def setCB (l : List (Nat × CB)) (c : Nat) (v : CB) : List (Nat × CB) :=
  match l with
  | [] => []
  | (k, v0) :: rest => if k = c then (k, v) :: rest else (k, v0) :: setCB rest c v

/-- Remove every entry with the given id (the block's memory is freed). -/
def removeCB (l : List (Nat × CB)) (c : Nat) : List (Nat × CB) :=
  match l with
  | [] => []
  | (k, v) :: rest => if k = c then removeCB rest c else (k, v) :: removeCB rest c

/-- Lookup of a live payload value by address. -/
def findVal (l : List (Nat × Int)) (a : Nat) : Option Int :=
  match l with
  | [] => none
  | (k, v) :: rest => if k = a then some v else findVal rest a

/-- Remove every payload entry with the given address (it has been destroyed). -/
def removeVal (l : List (Nat × Int)) (a : Nat) : List (Nat × Int) :=
  match l with
  | [] => []
  | (k, v) :: rest => if k = a then removeVal rest a else (k, v) :: removeVal rest a

/-- Whole-heap state: control blocks, live payloads, the event log, and the
next fresh control-block id and payload address. -/
structure World where
  cbs : List (Nat × CB)
  vals : List (Nat × Int)
  events : List Event
  nextCB : Nat
  nextAddr : Nat
deriving DecidableEq

/-- Empty heap. -/
def World.init : World :=
  { cbs := [], vals := [], events := [], nextCB := 0, nextAddr := 0 }

/-- Allocate a fresh payload holding the given value, returning its address. -/
def allocPayload (w : World) (v : Int) : World × Nat :=
  ({ w with vals := w.vals ++ [(w.nextAddr, v)], nextAddr := w.nextAddr + 1 },
   w.nextAddr)

/-- Allocate a fresh control block, returning its id. -/
def allocCB (w : World) (cb : CB) : World × Nat :=
  ({ w with cbs := w.cbs ++ [(w.nextCB, cb)], nextCB := w.nextCB + 1 }, w.nextCB)

/-- Delete or destroy the payload at the given address: it stops being live
and the action is logged (a second delete of the same address logs again,
which is exactly the double-free evidence the log exists to expose). -/
def deletePayload (w : World) (a : Nat) : World :=
  { w with vals := removeVal w.vals a,
           events := w.events ++ [Event.payloadDelete a] }

/-- OnZeroStrong for each variant: ControlBlockPtr deletes its owned pointer
(deleting null is a no-op), ControlBlockMakeShared destroys the in-place
payload without freeing storage.  The firing itself is logged first. -/
def onZeroStrong (w : World) (c : Nat) (k : CBKind) : World :=
  let w1 := { w with events := w.events ++ [Event.zeroStrong c] }
  match k with
  | CBKind.ptrBlock none => w1
  | CBKind.ptrBlock (some a) => deletePayload w1 a
  | CBKind.msBlock a => deletePayload w1 a

/-- OnZeroWeak for both variants: delete this, freeing the block's memory. -/
def onZeroWeak (w : World) (c : Nat) : World :=
  { w with cbs := removeCB w.cbs c,
           events := w.events ++ [Event.zeroWeak c] }

/-- ControlBlockBase.IncreaseStrong on the block with the given id. -/
def IncreaseStrong (w : World) (c : Nat) : World :=
  match findCB w.cbs c with
  | none => w
  | some cb => { w with cbs := setCB w.cbs c { cb with strong := cb.strong + 1 } }

/-- ControlBlockBase.DecreaseStrong: decrement strong; if the result is zero,
invoke OnZeroStrong and then OnZeroWeak, in that order. -/
def DecreaseStrong (w : World) (c : Nat) : World :=
  match findCB w.cbs c with
  | none => w
  | some cb =>
    let cb2 : CB := { cb with strong := cb.strong - 1 }
    let w1 := { w with cbs := setCB w.cbs c cb2 }
    if cb2.strong = 0 then onZeroWeak (onZeroStrong w1 c cb2.kind) c else w1

/-- Outcome of an operation that may dereference a null control pointer. -/
inductive Outcome (α : Type) where
  | ok : α → Outcome α
  | nullDeref : Outcome α
deriving DecidableEq

/-- SharedPtr fields: cb_ and ptr_, each possibly null. -/
structure SharedPtr where
  cb : Option Nat
  ptr : Option Nat
deriving DecidableEq

/-- Default constructor: allocates a new ControlBlockPtr holding null and
sets ptr_ to null (the control pointer is NOT null). -/
def SharedPtr.defaultCtor (w : World) : World × SharedPtr :=
  let r := allocCB w { strong := 1, weak := 1, kind := CBKind.ptrBlock none }
  (r.1, { cb := some r.2, ptr := none })

/-- Constructor from nullptr: both fields null. -/
def SharedPtr.fromNull : SharedPtr :=
  { cb := none, ptr := none }

/-- Constructor from a raw pointer: allocates a new ControlBlockPtr owning
that pointer and stores the pointer in ptr_. -/
def SharedPtr.fromRaw (w : World) (p : Option Nat) : World × SharedPtr :=
  let r := allocCB w { strong := 1, weak := 1, kind := CBKind.ptrBlock p }
  (r.1, { cb := some r.2, ptr := p })

/-- Copy constructor: reads other.cb_ and calls IncreaseStrong through it
(null dereference when other is Empty with null control), then shares both
fields. -/
def SharedPtr.copyCtor (w : World) (other : SharedPtr) :
    Outcome (World × SharedPtr) :=
  match other.cb with
  | none => Outcome.nullDeref
  | some c => Outcome.ok (IncreaseStrong w c, { cb := some c, ptr := other.ptr })

/-- Move constructor: takes both fields verbatim and nulls the source; no
counter change.  Returns the new handle and the emptied source. -/
def SharedPtr.moveCtor (other : SharedPtr) : SharedPtr × SharedPtr :=
  ({ cb := other.cb, ptr := other.ptr }, { cb := none, ptr := none })

/-- Aliasing constructor: shares other's control block (IncreaseStrong) but
stores an independent pointer. -/
def SharedPtr.aliasCtor (w : World) (other : SharedPtr) (p : Option Nat) :
    Outcome (World × SharedPtr) :=
  match other.cb with
  | none => Outcome.nullDeref
  | some c => Outcome.ok (IncreaseStrong w c, { cb := some c, ptr := p })

/-- Free operator== on two handles: compares the ptr_ fields as addresses,
ignoring the control blocks. -/
def SharedPtr.eqOp (a b : SharedPtr) : Bool :=
  decide (a.ptr = b.ptr)

/-- Copy assignment: if other == *this (payload-pointer comparison) return
unchanged; otherwise DecreaseStrong through the old cb_ (null dereference if
null), adopt other's control block with IncreaseStrong (null dereference if
other's is null), adopt other's ptr_. -/
def SharedPtr.copyAssign (w : World) (self other : SharedPtr) :
    Outcome (World × SharedPtr) :=
  if SharedPtr.eqOp other self then Outcome.ok (w, self)
  else
    match self.cb with
    | none => Outcome.nullDeref
    | some c =>
      let w1 := DecreaseStrong w c
      match other.cb with
      | none => Outcome.nullDeref
      | some c2 =>
        Outcome.ok (IncreaseStrong w1 c2, { cb := some c2, ptr := other.ptr })

/-- Move assignment: same guard and group-leave as copy assignment, then
IncreaseStrong on the new group (as the source does) and nulling of the
moved-from handle.  Returns the world, the assigned handle and the source. -/
def SharedPtr.moveAssign (w : World) (self other : SharedPtr) :
    Outcome (World × SharedPtr × SharedPtr) :=
  if SharedPtr.eqOp other self then Outcome.ok (w, self, other)
  else
    match self.cb with
    | none => Outcome.nullDeref
    | some c =>
      let w1 := DecreaseStrong w c
      match other.cb with
      | none => Outcome.nullDeref
      | some c2 =>
        Outcome.ok (IncreaseStrong w1 c2,
          { cb := some c2, ptr := other.ptr },
          { cb := none, ptr := none })

/-- Destructor: cb_->DecreaseStrong() unconditionally (null dereference when
cb_ is null), then if (ptr_) delete ptr_. -/
def SharedPtr.dtor (w : World) (self : SharedPtr) : Outcome World :=
  match self.cb with
  | none => Outcome.nullDeref
  | some c =>
    let w1 := DecreaseStrong w c
    match self.ptr with
    | none => Outcome.ok w1
    | some a => Outcome.ok (deletePayload w1 a)

/-- Reset(): if (cb_) DecreaseStrong; cb_ = null; if (ptr_) delete ptr_;
ptr_ = null. -/
def SharedPtr.reset (w : World) (self : SharedPtr) : World × SharedPtr :=
  let w1 := match self.cb with
    | some c => DecreaseStrong w c
    | none => w
  let w2 := match self.ptr with
    | some a => deletePayload w1 a
    | none => w1
  (w2, { cb := none, ptr := none })

/-- Observer Get(): returns ptr_. -/
def SharedPtr.get (self : SharedPtr) : Option Nat :=
  self.ptr

/-- Observer UseCount(): reads strong through cb_; none when cb_ is null or
the block is no longer live. -/
def SharedPtr.useCount (w : World) (self : SharedPtr) : Option Int :=
  match self.cb with
  | none => none
  | some c => (findCB w.cbs c).map CB.strong

/-- Dereference observer: the value currently live at ptr_, none when ptr_ is
null or the payload has been destroyed (a dangling read). -/
def SharedPtr.derefVal (w : World) (self : SharedPtr) : Option Int :=
  match self.ptr with
  | none => none
  | some a => findVal w.vals a

/-- MakeShared: allocates one ControlBlockMakeShared whose in-place storage
holds the payload, and returns a handle on it via the private constructor
(no counter change beyond the block's initial strong = weak = 1). -/
def MakeShared (w : World) (v : Int) : World × SharedPtr :=
  let r1 := allocPayload w v
  let r2 := allocCB r1.1 { strong := 1, weak := 1, kind := CBKind.msBlock r1.2 }
  (r2.1, { cb := some r2.2, ptr := some r1.2 })

/-- UniquePtr with the default deleter: the single ptr_ field. -/
structure UniquePtr where
  ptr : Option Nat
deriving DecidableEq

/-- UniquePtr.Release: returns ptr_ and nulls it; the deleter is not
invoked. -/
def UniquePtr.release (self : UniquePtr) : Option Nat × UniquePtr :=
  (self.ptr, { ptr := none })

/-- UniquePtr destructor: del_(ptr_), where the default deleter deletes the
pointer and deleting null is a no-op. -/
def UniquePtr.dtor (w : World) (self : UniquePtr) : World :=
  match self.ptr with
  | none => w
  | some a => deletePayload w a

/-- UniquePtr.Get(): returns ptr_. -/
def UniquePtr.get (self : UniquePtr) : Option Nat :=
  self.ptr

/-- UniquePtr boolean test: ptr_ is not null. -/
def UniquePtr.boolTest (self : UniquePtr) : Bool :=
  decide (self.ptr ≠ none)

/-- Number of payload-delete events for a given address in a log. -/
def countDeletes (l : List Event) (a : Nat) : Nat :=
  match l with
  | [] => 0
  | e :: rest =>
    (if e = Event.payloadDelete a then 1 else 0) + countDeletes rest a

/-- Events produced by OnZeroStrong (its firing mark, then the payload delete
or in-place destroy it performs, when there is one). -/
def strongZeroEvents (c : Nat) (k : CBKind) : List Event :=
  match k with
  | CBKind.ptrBlock none => [Event.zeroStrong c]
  | CBKind.ptrBlock (some a) => [Event.zeroStrong c, Event.payloadDelete a]
  | CBKind.msBlock a => [Event.zeroStrong c, Event.payloadDelete a]

/-- Trace for claim C1: construct a SharedPtr from a freshly allocated raw
pointer and let the single handle go out of scope. -/
def c1Trace : World :=
  let rp := allocPayload World.init 5
  let rh := SharedPtr.fromRaw rp.1 (some rp.2)
  match SharedPtr.dtor rh.1 rh.2 with
  | Outcome.ok w => w
  | Outcome.nullDeref => rh.1

/-- Scenario for claim C2: h1 = MakeShared 42; h2 copy of h1; h1.Reset();
report h2's UseCount and the value observed through h2. -/
def c2Scenario : Option (Option Int × Option Int) :=
  let r1 := MakeShared World.init 42
  match SharedPtr.copyCtor r1.1 r1.2 with
  | Outcome.nullDeref => none
  | Outcome.ok r2 =>
    let r3 := SharedPtr.reset r2.1 r1.2
    some (SharedPtr.useCount r3.1 r2.2, SharedPtr.derefVal r3.1 r2.2)

/-- Scenario for claim C4: a and b own distinct fresh allocations, then
a = move(b); report b's group's strong count before and after. -/
def c4Scenario : Option (Option Int × Option Int) :=
  let rp1 := allocPayload World.init 1
  let rp2 := allocPayload rp1.1 2
  let ra := SharedPtr.fromRaw rp2.1 (some rp1.2)
  let rb := SharedPtr.fromRaw ra.1 (some rp2.2)
  let before := SharedPtr.useCount rb.1 rb.2
  match SharedPtr.moveAssign rb.1 ra.2 rb.2 with
  | Outcome.nullDeref => none
  | Outcome.ok r => some (before, SharedPtr.useCount r.1 r.2.1)

/-- Lookup after full removal of an id finds nothing. -/
theorem findCB_removeCB (l : List (Nat × CB)) (c : Nat) :
    findCB (removeCB l c) c = none := by
  induction l with
  | nil => rfl
  | cons hd tl ih =>
    by_cases hk : hd.1 = c
    · simp [removeCB, hk, ih]
    · simp [removeCB, findCB, hk, ih]

/-- Claim C1: in the trace that constructs a SharedPtr from a freshly
allocated raw pointer and destroys that single handle, the payload is
deleted twice — once by OnZeroStrong and once more by the destructor's own
delete of ptr_ — refuting the exactly-once destruction claim. -/
theorem c1_payload_double_delete :
    c1Trace.events
      = [Event.zeroStrong 0, Event.payloadDelete 0, Event.zeroWeak 0,
         Event.payloadDelete 0]
      ∧ countDeletes c1Trace.events 0 = 2 := by
  decide

/-- Claim C2: in the scenario h1 = MakeShared 42, h2 copy of h1, h1.Reset(),
h2 still reports UseCount 1 but the payload has already been destroyed by
Reset's delete of ptr_, so dereferencing h2 reads a dead payload instead of
42 — refuting the live-unchanged-payload claim. -/
theorem c2_reset_destroys_shared_payload :
    c2Scenario = some (some 1, none) := by
  decide

/-- Claim C3 counterexample: a default-constructed SharedPtr is not in the
Empty state of the claim — its control pointer is a freshly allocated
ControlBlockPtr, not null. -/
theorem c3_default_control_not_null :
    ¬ ((SharedPtr.defaultCtor World.init).2.cb = none
        ∧ (SharedPtr.defaultCtor World.init).2.ptr = none) := by
  decide

/-- Claim C3 as amended: a default-constructed SharedPtr has a null payload
pointer but a non-null control pointer referring to a freshly allocated
ControlBlockPtr that owns a null pointer with strong = weak = 1; only
construction from nullptr puts both fields at null. -/
theorem c3_default_ctor_allocates_block (w : World) :
    (SharedPtr.defaultCtor w).2.ptr = none ∧
    (SharedPtr.defaultCtor w).2.cb = some w.nextCB ∧
    (SharedPtr.defaultCtor w).1.cbs
      = w.cbs ++ [(w.nextCB,
          { strong := 1, weak := 1, kind := CBKind.ptrBlock none })] ∧
    SharedPtr.fromNull.cb = none ∧ SharedPtr.fromNull.ptr = none :=
  ⟨rfl, rfl, rfl, rfl, rfl⟩

/-- Claim C4: with a and b owning distinct fresh allocations (b's group at
strong = 1), a = move(b) calls IncreaseStrong on b's former group, leaving
its strong count at 2 although only one handle now references it — refuting
the no-increase transfer claim. -/
theorem c4_move_assign_increments_strong :
    c4Scenario = some (some 1, some 2) := by
  decide

/-- Claim C5: DecreaseStrong decrements the strong counter by one; when the
result is non-zero the heap changes only by that decrement and no callback
event is logged; when the result is zero, OnZeroStrong fires first and
OnZeroWeak second, each exactly once, and the block is freed. -/
theorem c5_decrease_strong_spec (w : World) (c : Nat) (cb : CB)
    (h : findCB w.cbs c = some cb) :
    (cb.strong - 1 ≠ 0 →
      DecreaseStrong w c
        = { w with cbs := setCB w.cbs c { cb with strong := cb.strong - 1 } }) ∧
    (cb.strong - 1 = 0 →
      (DecreaseStrong w c).events
          = w.events ++ strongZeroEvents c cb.kind ++ [Event.zeroWeak c] ∧
      findCB (DecreaseStrong w c).cbs c = none) := by
  constructor
  · intro hne
    simp [DecreaseStrong, h, hne]
  · intro hz
    cases hk : cb.kind with
    | ptrBlock p =>
      cases p with
      | none =>
        simp [DecreaseStrong, h, hz, hk, onZeroWeak, onZeroStrong,
          deletePayload, strongZeroEvents, findCB_removeCB]
      | some a =>
        simp [DecreaseStrong, h, hz, hk, onZeroWeak, onZeroStrong,
          deletePayload, strongZeroEvents, findCB_removeCB]
    | msBlock a =>
      simp [DecreaseStrong, h, hz, hk, onZeroWeak, onZeroStrong,
        deletePayload, strongZeroEvents, findCB_removeCB]

/-- Witness for claim C5 at a concrete heap: one block with strong = 1 owning
payload address 7; decrementing fires both callbacks in order and frees the
block. -/
theorem c5_decrease_strong_witness :
    ((1 : Int) - 1 = 0) ∧
    ((DecreaseStrong
        { cbs := [(0, { strong := 1, weak := 1,
                        kind := CBKind.ptrBlock (some 7) })],
          vals := [(7, 3)], events := [], nextCB := 1, nextAddr := 8 } 0).events
      = ([] : List Event) ++ strongZeroEvents 0 (CBKind.ptrBlock (some 7))
          ++ [Event.zeroWeak 0] ∧
     findCB (DecreaseStrong
        { cbs := [(0, { strong := 1, weak := 1,
                        kind := CBKind.ptrBlock (some 7) })],
          vals := [(7, 3)], events := [], nextCB := 1, nextAddr := 8 } 0).cbs 0
      = none) :=
  ⟨by decide,
   (c5_decrease_strong_spec
      { cbs := [(0, { strong := 1, weak := 1,
                      kind := CBKind.ptrBlock (some 7) })],
        vals := [(7, 3)], events := [], nextCB := 1, nextAddr := 8 } 0
      { strong := 1, weak := 1, kind := CBKind.ptrBlock (some 7) }
      (by decide)).2 (by decide)⟩

/-- Claim C6: self-assignment, copy or move, on any handle (Empty or Owning)
takes the guard branch and is a no-op: the heap (hence every strong counter,
Get and UseCount) and the handle are unchanged. -/
theorem c6_self_assign_noop (w : World) (h : SharedPtr) :
    SharedPtr.copyAssign w h h = Outcome.ok (w, h) ∧
    SharedPtr.moveAssign w h h = Outcome.ok (w, h, h) := by
  constructor <;>
    simp [SharedPtr.copyAssign, SharedPtr.moveAssign, SharedPtr.eqOp]

/-- Claim C7: operator== holds exactly when the two payload pointers are
equal as addresses; it is independent of the control blocks, and two handles
with null payload pointers (in particular two Empty handles, or handles from
different groups) compare equal. -/
theorem c7_equality_by_payload_address (a b : SharedPtr) :
    (SharedPtr.eqOp a b = true ↔ a.ptr = b.ptr) ∧
    (∀ c1 c2 : Option Nat,
      SharedPtr.eqOp { cb := c1, ptr := a.ptr } { cb := c2, ptr := b.ptr }
        = SharedPtr.eqOp a b) ∧
    SharedPtr.eqOp { cb := a.cb, ptr := none } { cb := b.cb, ptr := none }
      = true := by
  refine ⟨?_, ?_, ?_⟩ <;> simp [SharedPtr.eqOp]

/-- Claim C8: Release on a UniquePtr holding p returns p and leaves the
handle holding null (Get null, boolean test false) without invoking the
deleter, and destroying the released handle afterwards changes nothing. -/
theorem c8_release_no_destroy (w : World) (u : UniquePtr) (p : Nat)
    (h : u.ptr = some p) :
    UniquePtr.release u = (some p, { ptr := none }) ∧
    UniquePtr.get (UniquePtr.release u).2 = none ∧
    UniquePtr.boolTest (UniquePtr.release u).2 = false ∧
    UniquePtr.dtor w (UniquePtr.release u).2 = w := by
  refine ⟨?_, rfl, rfl, rfl⟩
  simp [UniquePtr.release, h]

/-- Witness for claim C8 at the concrete handle holding address 3. -/
theorem c8_release_no_destroy_witness :
    UniquePtr.release { ptr := some 3 } = (some 3, { ptr := none }) ∧
    UniquePtr.get (UniquePtr.release { ptr := some 3 }).2 = none ∧
    UniquePtr.boolTest (UniquePtr.release { ptr := some 3 }).2 = false ∧
    UniquePtr.dtor World.init (UniquePtr.release { ptr := some 3 }).2
      = World.init :=
  c8_release_no_destroy World.init { ptr := some 3 } 3 rfl

/-- Claim C9: on a handle whose control pointer is null (as produced by the
nullptr constructor or by being moved from), the destructor dereferences the
null control block, and so do copy and move assignment whenever the incoming
handle's payload pointer differs (so the guard does not return early). -/
theorem c9_null_control_deref (w : World) (h b : SharedPtr)
    (hc : h.cb = none) (hne : ¬ b.ptr = h.ptr) :
    SharedPtr.dtor w h = Outcome.nullDeref ∧
    SharedPtr.copyAssign w h b = Outcome.nullDeref ∧
    SharedPtr.moveAssign w h b = Outcome.nullDeref ∧
    SharedPtr.fromNull.cb = none ∧
    (SharedPtr.moveCtor h).2.cb = none := by
  refine ⟨?_, ?_, ?_, rfl, rfl⟩ <;>
    simp [SharedPtr.dtor, SharedPtr.copyAssign, SharedPtr.moveAssign,
      SharedPtr.eqOp, hc, hne]

/-- Witness for claim C9: the nullptr-constructed handle against an incoming
handle whose payload pointer is address 0. -/
theorem c9_null_control_deref_witness :
    SharedPtr.dtor World.init SharedPtr.fromNull = Outcome.nullDeref ∧
    SharedPtr.copyAssign World.init SharedPtr.fromNull
      { cb := none, ptr := some 0 } = Outcome.nullDeref ∧
    SharedPtr.moveAssign World.init SharedPtr.fromNull
      { cb := none, ptr := some 0 } = Outcome.nullDeref ∧
    SharedPtr.fromNull.cb = none ∧
    (SharedPtr.moveCtor SharedPtr.fromNull).2.cb = none :=
  c9_null_control_deref World.init SharedPtr.fromNull
    { cb := none, ptr := some 0 } rfl (by decide)

/-- Claim C10: the self-assignment guard compares payload pointers only:
whenever a and b have equal payload pointers (their control blocks may
differ), copy and move assignment return immediately — a keeps its control
block and payload, b is unchanged, and the heap (hence every strong counter)
is untouched. -/
theorem c10_guard_compares_payload (w : World) (a b : SharedPtr)
    (hp : a.ptr = b.ptr) :
    SharedPtr.copyAssign w a b = Outcome.ok (w, a) ∧
    SharedPtr.moveAssign w a b = Outcome.ok (w, a, b) := by
  constructor <;>
    simp [SharedPtr.copyAssign, SharedPtr.moveAssign, SharedPtr.eqOp, hp]

/-- Witness for claim C10: two distinct handles with different control blocks
and equal (null) payload pointers; both assignments are no-ops. -/
theorem c10_guard_compares_payload_witness :
    SharedPtr.copyAssign World.init { cb := some 0, ptr := none }
        { cb := some 1, ptr := none }
      = Outcome.ok (World.init, { cb := some 0, ptr := none }) ∧
    SharedPtr.moveAssign World.init { cb := some 0, ptr := none }
        { cb := some 1, ptr := none }
      = Outcome.ok (World.init, { cb := some 0, ptr := none },
          { cb := some 1, ptr := none }) :=
  c10_guard_compares_payload World.init { cb := some 0, ptr := none }
    { cb := some 1, ptr := none } rfl
